import Mathlib

/-!
Verification of the Lost & Found Matching Engine of the pet-adoption
repository.  The backend engine (scoring, match repository, state machine,
conflict guard) is modelled from the specification; the frontend behaviour
(service layer defaults, match-action rendering, notification badge,
reason-list rendering, conflict error handling) is embedded from the
JavaScript sources under src/frontend and src/unnamed.
-/

namespace LostFound

/-! ## Character-list utilities (model of JS string primitives) -/

/-- Model of JS `String.prototype.startsWith` on character lists. -/
def leadsWith : List Char → List Char → Bool
  | [], _ => true
  | _ :: _, [] => false
  | a :: as, b :: bs => (a = b) && leadsWith as bs

/-- Model of JS `String.prototype.includes` on character lists:
`occursIn pat text` is true when `pat` occurs contiguously in `text`. -/
def occursIn (pat : List Char) : List Char → Bool
  | [] => pat.isEmpty
  | c :: rest => leadsWith pat (c :: rest) || occursIn pat rest

/-- Model of JS `String.prototype.includes` on Lean strings. -/
def jsIncludes (s pat : String) : Bool := occursIn pat.data s.data

/-- Model of JS `String.prototype.split(';')` (single-character separator):
always returns at least one (possibly empty) segment. -/
def splitOnChar (c : Char) : List Char → List (List Char)
  | [] => [[]]
  | x :: xs =>
    if x = c then [] :: splitOnChar c xs
    else
      match splitOnChar c xs with
      | [] => [[x]]
      | y :: ys => (x :: y) :: ys

/-- JS whitespace test used by `trim` (the characters relevant here). -/
def isSpaceChar (c : Char) : Bool := (c = ' ') || (c = '\t') || (c = '\n') || (c = '\r')

/-- Model of JS `String.prototype.trim` on character lists. -/
def trimChars (l : List Char) : List Char :=
  ((l.dropWhile isSpaceChar).reverse.dropWhile isSpaceChar).reverse

/-- Model of `Array.prototype.join(sep)` on character lists. -/
def joinWith (sep : List Char) : List (List Char) → List Char
  | [] => []
  | [x] => x
  | x :: y :: ys => x ++ sep ++ joinWith sep (y :: ys)

/-- Lowercasing on character lists (case-insensitive comparisons). -/
def lowerChars (l : List Char) : List Char := l.map Char.toLower

/-- Case-insensitive string equality used by the attribute comparator. -/
def caseInsensitiveEq (a b : String) : Bool := lowerChars a.data = lowerChars b.data

/-- Case-insensitive substring containment in either direction. -/
def looseContains (a b : String) : Bool :=
  occursIn (lowerChars a.data) (lowerChars b.data) ||
  occursIn (lowerChars b.data) (lowerChars a.data)

/-! ## Data model (spec section 3) -/

/-- Report lifecycle status. -/
inductive ReportStatus where
  | active
  | matched
  | resolved
  deriving DecidableEq, Repr

/-- Ordered pet size scale (small < medium < large). -/
inductive PetSize where
  | small
  | medium
  | large
  deriving DecidableEq, Repr

/-- Match lifecycle status. -/
inductive MatchStatus where
  | pending
  | confirmed
  | rejected
  | resolved
  deriving DecidableEq, Repr

/-- A lost-pet report.  Dates are modelled as day numbers. -/
structure LostReport where
  id : Nat
  owner_user_id : Nat
  pet_type : String
  breed : Option String
  color : Option String
  size : Option PetSize
  description : String
  last_seen_location : String
  last_seen_date : Int
  status : ReportStatus
  deriving DecidableEq, Repr

/-- A found-pet report.  Dates are modelled as day numbers. -/
structure FoundReport where
  id : Nat
  reporter_user_id : Nat
  pet_type : String
  breed : Option String
  color : Option String
  size : Option PetSize
  description : String
  location_found : String
  date_found : Int
  contact_email : String
  contact_phone : String
  status : ReportStatus
  deriving DecidableEq, Repr

/-- A candidate match between one lost and one found report. -/
structure Match where
  id : Nat
  lost_report_id : Nat
  found_report_id : Nat
  match_score : ℚ
  match_reasons : List String
  status : MatchStatus
  is_confirmed : Bool
  deriving DecidableEq, Repr

/-- A notification record delivered to a user's inbox. -/
structure MatchNotification where
  id : Nat
  recipient_user_id : Nat
  match_id : Option Nat
  title : String
  message : String
  is_read : Bool
  deriving DecidableEq, Repr

/-! ## C10: service-layer default query parameter
From src/frontend/src/services/lostFoundService.js, getFoundReports:
`apiClient.get(..., { params: { status: 'active', ...params } })`. -/

/-- Model of the JS object spread `{ status: 'active', ...extra }`: keys of
`base` first (values overridden by `extra` when present), then the keys of
`extra` not already in `base`.  Objects are association lists with unique
keys; lookup takes the first binding. -/
def jsSpread (base extra : List (String × String)) : List (String × String) :=
  (base.map (fun kv =>
    match extra.lookup kv.1 with
    | some v => (kv.1, v)
    | none => kv))
  ++ extra.filter (fun kv => (base.lookup kv.1).isNone)

/-- The `status` query-parameter key. -/
def statusKey : String := "status"

/-- The default `status` value sent for found-report listings. -/
def activeValue : String := "active"

/-- The query parameters `lostFoundService.getFoundReports(params)` sends:
the default object `{ status: 'active' }` spread-merged with the caller's
`params` (from src/frontend/src/services/lostFoundService.js lines 49-52). -/
def getFoundReportsParams (params : List (String × String)) : List (String × String) :=
  jsSpread [(statusKey, activeValue)] params

/-! ## C9: match-notification badge
From src/frontend/src/components/LostAndFound.jsx lines 269-273. -/

/-- Number of unread match notifications
(`matchNotifications.filter((n) => !n.is_read).length`). -/
def badgeCount (ns : List MatchNotification) : Nat :=
  (ns.filter (fun n => !n.is_read)).length

/-- Whether the red badge is rendered at all (the JSX guard
`count > 0 && <span>...</span>`). -/
def badgeVisible (ns : List MatchNotification) : Bool :=
  decide (0 < badgeCount ns)

/-- The badge caption text. -/
def ninetyNinePlusText : String := "99+"

/-- The text inside the badge (`count > 99 ? '99+' : count`). -/
def badgeText (ns : List MatchNotification) : String :=
  if 99 < badgeCount ns then ninetyNinePlusText else Nat.repr (badgeCount ns)

/-! ## AttributeComparator / ScoringEngine
Modelled from the spec: the backend scoring module is not under src/;
spec sections 4.1 and 4.2 describe it. -/

/-- Weight of the pet-type attribute. -/
def typeWeight : ℚ := 20

/-- Weight of the breed attribute. -/
def breedWeight : ℚ := 20

/-- Weight of the color attribute. -/
def colorWeight : ℚ := 15

/-- Weight of the size attribute. -/
def sizeWeight : ℚ := 10

/-- Weight of the location attribute. -/
def locationWeight : ℚ := 15

/-- Weight of the date-proximity attribute. -/
def dateWeight : ℚ := 20

/-- Maximum day window for date-proximity credit. -/
def dateWindow : Nat := 30

/-- Modelled from the spec: exact/substring text similarity — exact
case-insensitive match scores the full weight, substring containment in
either direction half the weight, otherwise 0 (spec 4.1, breed/color). -/
def textSim (weight : ℚ) (a b : String) : ℚ :=
  if caseInsensitiveEq a b then weight
  else if looseContains a b then weight / 2
  else 0

/-- Numeric rank of a pet size on the ordered small < medium < large scale. -/
def sizeRank : PetSize → Nat
  | PetSize.small => 0
  | PetSize.medium => 1
  | PetSize.large => 2

/-- Modelled from the spec: size similarity — exact match full weight,
adjacent size half weight, otherwise 0 (spec 4.1). -/
def sizeSim (weight : ℚ) (a b : PetSize) : ℚ :=
  if a = b then weight
  else if (sizeRank a - sizeRank b : Int).natAbs = 1 then weight / 2
  else 0

/-- Modelled from the spec: location similarity — case-insensitive substring
containment between the two location texts scores the location weight,
otherwise 0 (spec 4.1). -/
def locationSim (weight : ℚ) (a b : String) : ℚ :=
  if looseContains a b then weight else 0

/-- Modelled from the spec: date proximity — absolute day difference mapped
linearly from the full weight at 0 days down to 0 at `dateWindow` days;
a negative difference is scored by absolute distance (spec 4.1). -/
def dateSim (weight : ℚ) (a b : Int) : ℚ :=
  let d : Nat := (a - b).natAbs
  if dateWindow ≤ d then 0 else weight * ((dateWindow - d : ℚ)) / (dateWindow : ℚ)

/-- Per-attribute sub-scores plus presence flags, as returned by
`compareAttributes` so that the scoring engine can normalize. -/
structure AttributeScoreBreakdown where
  typeVeto : Bool
  typeScore : ℚ
  breedPresent : Bool
  breedScore : ℚ
  colorPresent : Bool
  colorScore : ℚ
  sizePresent : Bool
  sizeScore : ℚ
  locationScore : ℚ
  dateScore : ℚ
  deriving DecidableEq, Repr

/-- Modelled from the spec: `compareAttributes(lost, found)` — pure
attribute comparison (spec 4.1).  A pet-type mismatch raises the veto flag;
breed/color/size are optional and flagged absent when either side omits
them. -/
def compareAttributes (lost : LostReport) (found : FoundReport) : AttributeScoreBreakdown :=
  { typeVeto := lost.pet_type != found.pet_type
    typeScore := if lost.pet_type = found.pet_type then typeWeight else 0
    breedPresent := lost.breed.isSome && found.breed.isSome
    breedScore :=
      match lost.breed, found.breed with
      | some a, some b => textSim breedWeight a b
      | _, _ => 0
    colorPresent := lost.color.isSome && found.color.isSome
    colorScore :=
      match lost.color, found.color with
      | some a, some b => textSim colorWeight a b
      | _, _ => 0
    sizePresent := lost.size.isSome && found.size.isSome
    sizeScore :=
      match lost.size, found.size with
      | some a, some b => sizeSim sizeWeight a b
      | _, _ => 0
    locationScore := locationSim locationWeight lost.last_seen_location found.location_found
    dateScore := dateSim dateWeight lost.last_seen_date found.date_found }

/-- Total weight of the attributes actually present for a pair; missing
optional attributes redistribute their weight proportionally (spec 4.2). -/
def presentWeight (b : AttributeScoreBreakdown) : ℚ :=
  100 - (if b.breedPresent then 0 else breedWeight)
      - (if b.colorPresent then 0 else colorWeight)
      - (if b.sizePresent then 0 else sizeWeight)

/-- Insert one (contribution, sentence) entry keeping contributions in
descending order. -/
def insertByScore (p : ℚ × String) : List (ℚ × String) → List (ℚ × String)
  | [] => [p]
  | q :: qs => if q.1 ≤ p.1 then p :: q :: qs else q :: insertByScore p qs

/-- Sort (contribution, sentence) entries by descending contribution. -/
def sortByScoreDesc : List (ℚ × String) → List (ℚ × String)
  | [] => []
  | p :: ps => insertByScore p (sortByScoreDesc ps)

/-- Reason sentences paired with their contributions, one per attribute
that contributed a non-zero sub-score (spec 4.2). -/
def reasonEntries (b : AttributeScoreBreakdown) (lost : LostReport) (found : FoundReport) :
    List (ℚ × String) :=
  (if 0 < b.typeScore then [(b.typeScore, "Same pet type: " ++ lost.pet_type)] else [])
  ++ (if 0 < b.breedScore then [(b.breedScore, "Similar breed")] else [])
  ++ (if 0 < b.colorScore then [(b.colorScore, "Similar color")] else [])
  ++ (if 0 < b.sizeScore then [(b.sizeScore, "Similar size")] else [])
  ++ (if 0 < b.locationScore then
        [(b.locationScore,
          "Location overlap: " ++ lost.last_seen_location ++ " / " ++ found.location_found)]
      else [])
  ++ (if 0 < b.dateScore then [(b.dateScore, "Reported dates are close together")] else [])

/-- Modelled from the spec: `score(lost, found)` — if the comparator
signals a type veto, return score 0 and no reasons; otherwise sum the
sub-scores, normalize to 0-100 over the present weight, and emit the
reasons ordered by descending contribution (spec 4.2). -/
def score (lost : LostReport) (found : FoundReport) : ℚ × List String :=
  let b := compareAttributes lost found
  if b.typeVeto then (0, [])
  else
    let total := b.typeScore + b.breedScore + b.colorScore + b.sizeScore +
      b.locationScore + b.dateScore
    ((total * 100) / presentWeight b,
     (sortByScoreDesc (reasonEntries b lost found)).map Prod.snd)

/-! ## MatchRepository (spec section 4.4)
Modelled from the spec: the backend repository is not under src/. -/

/-- Whether a match row is for the given (lost, found) report pair. -/
def pairMatches (m : Match) (lid fid : Nat) : Bool :=
  decide (m.lost_report_id = lid ∧ m.found_report_id = fid)

/-- Number of match rows stored for the given pair. -/
def pairCount (ms : List Match) (lid fid : Nat) : Nat :=
  ms.countP (fun m => pairMatches m lid fid)

/-- A freshly inserted pending match row. -/
def mkPendingMatch (newId lid fid : Nat) (sc : ℚ) (rs : List String) : Match :=
  { id := newId
    lost_report_id := lid
    found_report_id := fid
    match_score := sc
    match_reasons := rs
    status := MatchStatus.pending
    is_confirmed := false }

/-- The in-place rescoring applied to one stored row: a pending row for the
pair gets the new score and reasons, every other row is untouched. -/
def rescorePending (lid fid : Nat) (sc : ℚ) (rs : List String) (m : Match) : Match :=
  if pairMatches m lid fid ∧ m.status = MatchStatus.pending then
    { m with match_score := sc, match_reasons := rs }
  else m

/-- Modelled from the spec: `upsert(lost_id, found_id, score, reasons)` —
if a match already exists for the pair, update score/reasons in place but
only when its status is pending (settled matches are immutable to
rescoring); otherwise insert one new pending row (spec 4.4). -/
def upsert (ms : List Match) (lid fid : Nat) (sc : ℚ) (rs : List String) (newId : Nat) :
    List Match :=
  if ms.any (fun m => pairMatches m lid fid) then
    ms.map (rescorePending lid fid sc rs)
  else ms ++ [mkPendingMatch newId lid fid sc rs]

/-! ## MatchStateMachine (spec section 4.5)
Modelled from the spec: the backend state machine is not under src/. -/

/-- The engine's shared mutable state: report tables, match table and the
notification inbox records. -/
structure EngineState where
  lost : List LostReport
  found : List FoundReport
  matchesTable : List Match
  notifications : List MatchNotification
  deriving DecidableEq, Repr

/-- Error taxonomy for state transitions (spec section 7).  An
`invalidTransition` carries the current and the requested status. -/
inductive TransitionError where
  | notFound
  | forbidden
  | invalidTransition (current requested : MatchStatus)
  deriving DecidableEq, Repr

/-- Look up a match by id. -/
def findMatch (s : EngineState) (mid : Nat) : Option Match :=
  s.matchesTable.find? (fun m => m.id = mid)

/-- Look up a lost report by id. -/
def findLost (s : EngineState) (rid : Nat) : Option LostReport :=
  s.lost.find? (fun r => r.id = rid)

/-- Look up a found report by id. -/
def findFound (s : EngineState) (rid : Nat) : Option FoundReport :=
  s.found.find? (fun r => r.id = rid)

/-- The acting user is a participant when they own the lost report or filed
the found report (spec 4.5). -/
def isParticipant (uid : Nat) (lr : LostReport) (fr : FoundReport) : Bool :=
  (uid = lr.owner_user_id) || (uid = fr.reporter_user_id)

/-- A fresh unread notification record. -/
def mkNotification (recipient : Nat) (mid : Option Nat) (title message : String) :
    MatchNotification :=
  { id := 0
    recipient_user_id := recipient
    match_id := mid
    title := title
    message := message
    is_read := false }

/-- Title of confirmation notifications. -/
def confirmTitle : String := "Match confirmed"

/-- Body of confirmation notifications. -/
def confirmMessage : String := "A match for your report was confirmed."

/-- Title of auto-rejection notifications. -/
def autoRejectTitle : String := "Match no longer available"

/-- Body of auto-rejection notifications. -/
def autoRejectMessage : String := "Another match for this report was confirmed."

/-- Title of resolution notifications. -/
def resolveTitle : String := "Match resolved"

/-- Body of resolution notifications. -/
def resolveMessage : String := "This match was marked as resolved."

/-- The other pending matches that confirming `m` auto-rejects: every match
other than `m` that references `m`'s lost report or `m`'s found report and
is still pending (spec 4.5). -/
def autoRejectedOf (s : EngineState) (m : Match) : List Match :=
  s.matchesTable.filter (fun m2 =>
    decide (m2.id ≠ m.id ∧ m2.status = MatchStatus.pending ∧
      (m2.lost_report_id = m.lost_report_id ∨ m2.found_report_id = m.found_report_id)))

/-- Notifications sent to the parties of one auto-rejected match. -/
def autoRejectNotifications (s : EngineState) (m2 : Match) : List MatchNotification :=
  ((findLost s m2.lost_report_id).toList.map (fun r =>
    mkNotification r.owner_user_id (some m2.id) autoRejectTitle autoRejectMessage))
  ++ ((findFound s m2.found_report_id).toList.map (fun r =>
    mkNotification r.reporter_user_id (some m2.id) autoRejectTitle autoRejectMessage))

/-- The per-match update applied to the match table by a confirmation of
`m`: `m` itself becomes confirmed (with `is_confirmed` set), every other
pending match touching either of `m`'s reports becomes rejected, and all
remaining matches are untouched (spec 4.5). -/
def confirmMatchUpdate (m m2 : Match) : Match :=
  if m2.id = m.id then { m2 with status := MatchStatus.confirmed, is_confirmed := true }
  else if (m2.lost_report_id = m.lost_report_id ∨ m2.found_report_id = m.found_report_id) ∧
      m2.status = MatchStatus.pending then
    { m2 with status := MatchStatus.rejected }
  else m2

/-- The successful-confirmation state: match table updated via
`confirmMatchUpdate`, both referenced reports set to matched, and
notifications emitted to both parties and to the parties of each
auto-rejected match (spec 4.5). -/
def applyConfirm (s : EngineState) (m : Match) (lr : LostReport) (fr : FoundReport) :
    EngineState :=
  { s with
    matchesTable := s.matchesTable.map (confirmMatchUpdate m)
    lost := s.lost.map (fun r =>
      if r.id = m.lost_report_id then { r with status := ReportStatus.matched } else r)
    found := s.found.map (fun r =>
      if r.id = m.found_report_id then { r with status := ReportStatus.matched } else r)
    notifications := s.notifications
      ++ [mkNotification lr.owner_user_id (some m.id) confirmTitle confirmMessage,
          mkNotification fr.reporter_user_id (some m.id) confirmTitle confirmMessage]
      ++ (autoRejectedOf s m).flatMap (autoRejectNotifications s) }

/-- Modelled from the spec: `confirm(match_id, actingUserId)` — legal only
from pending and only for a participant; on success applies
`applyConfirm` (spec 4.5). -/
def confirm (s : EngineState) (mid uid : Nat) : Except TransitionError EngineState :=
  match findMatch s mid with
  | none => Except.error TransitionError.notFound
  | some m =>
    match findLost s m.lost_report_id, findFound s m.found_report_id with
    | some lr, some fr =>
      if isParticipant uid lr fr then
        if m.status = MatchStatus.pending then Except.ok (applyConfirm s m lr fr)
        else Except.error (TransitionError.invalidTransition m.status MatchStatus.confirmed)
      else Except.error TransitionError.forbidden
    | _, _ => Except.error TransitionError.notFound

/-- Modelled from the spec: `reject(match_id, actingUserId)` — legal only
from pending and only for a participant; sets the match rejected and does
not alter report status (spec 4.5; a reject is silent, no notification). -/
def reject (s : EngineState) (mid uid : Nat) : Except TransitionError EngineState :=
  match findMatch s mid with
  | none => Except.error TransitionError.notFound
  | some m =>
    match findLost s m.lost_report_id, findFound s m.found_report_id with
    | some lr, some fr =>
      if isParticipant uid lr fr then
        if m.status = MatchStatus.pending then
          Except.ok { s with matchesTable := s.matchesTable.map (fun m2 =>
            if m2.id = m.id then { m2 with status := MatchStatus.rejected } else m2) }
        else Except.error (TransitionError.invalidTransition m.status MatchStatus.rejected)
      else Except.error TransitionError.forbidden
    | _, _ => Except.error TransitionError.notFound

/-- The successful-resolution state: match resolved, both reports resolved,
closing notifications to both parties (spec 4.5). -/
def applyResolve (s : EngineState) (m : Match) (lr : LostReport) (fr : FoundReport) :
    EngineState :=
  { s with
    matchesTable := s.matchesTable.map (fun m2 =>
      if m2.id = m.id then { m2 with status := MatchStatus.resolved } else m2)
    lost := s.lost.map (fun r =>
      if r.id = m.lost_report_id then { r with status := ReportStatus.resolved } else r)
    found := s.found.map (fun r =>
      if r.id = m.found_report_id then { r with status := ReportStatus.resolved } else r)
    notifications := s.notifications
      ++ [mkNotification lr.owner_user_id (some m.id) resolveTitle resolveMessage,
          mkNotification fr.reporter_user_id (some m.id) resolveTitle resolveMessage] }

/-- Modelled from the spec: `resolve(match_id, actingUserId)` — legal only
from confirmed, for a participant; resolving an already-resolved match is a
no-op success while any other source state is an invalid transition
(spec 4.5). -/
def resolve (s : EngineState) (mid uid : Nat) : Except TransitionError EngineState :=
  match findMatch s mid with
  | none => Except.error TransitionError.notFound
  | some m =>
    match findLost s m.lost_report_id, findFound s m.found_report_id with
    | some lr, some fr =>
      if isParticipant uid lr fr then
        if m.status = MatchStatus.resolved then Except.ok s
        else if m.status = MatchStatus.confirmed then Except.ok (applyResolve s m lr fr)
        else Except.error (TransitionError.invalidTransition m.status MatchStatus.resolved)
      else Except.error TransitionError.forbidden
    | _, _ => Except.error TransitionError.notFound

/-! ## ConflictGuard (spec section 4.7)
Modelled from the spec: the backend guard is not under src/; the client
side of the flow is embedded from
src/frontend/src/components/LostAndFound.jsx (handleReportFound). -/

/-- The attributes submitted when filing a found report. -/
structure FoundReportAttrs where
  pet_type : String
  breed : Option String
  color : Option String
  size : Option PetSize
  description : String
  location_found : String
  date_found : Int
  contact_email : String
  contact_phone : String
  deriving DecidableEq, Repr

/-- Modelled from the spec: the submitted found-report attributes echo a
lost report when the pet types agree and, where both sides supply them,
breed and color agree case-insensitively (spec 4.7). -/
def attrsEchoLost (attrs : FoundReportAttrs) (lr : LostReport) : Bool :=
  (attrs.pet_type == lr.pet_type)
  && (match attrs.breed, lr.breed with
      | some a, some b => caseInsensitiveEq a b
      | _, _ => true)
  && (match attrs.color, lr.color with
      | some a, some b => caseInsensitiveEq a b
      | _, _ => true)

/-- Whether a lost report triggers the conflict guard for this user and
this found-report submission: the user owns it, it is active or matched,
and the submitted attributes echo it (spec 4.7). -/
def ownConflict (uid : Nat) (attrs : FoundReportAttrs) (lr : LostReport) : Bool :=
  decide (lr.owner_user_id = uid
    ∧ (lr.status = ReportStatus.active ∨ lr.status = ReportStatus.matched)
    ∧ attrsEchoLost attrs lr = true)

/-- Modelled from the spec: the Conflict error detail message instructing
the caller to use the resolve flow instead (spec 4.7 and section 7). -/
def conflictDetailMessage : String :=
  "You cannot report your own lost pet as found. Please mark your lost report as resolved instead."

/-- A Conflict error: the HTTP 409-equivalent body `{detail, lost_report_id}`. -/
structure ConflictError where
  detail : String
  lost_report_id : Nat
  deriving DecidableEq, Repr

/-- The active found report created from a submission. -/
def foundFromAttrs (uid newId : Nat) (attrs : FoundReportAttrs) : FoundReport :=
  { id := newId
    reporter_user_id := uid
    pet_type := attrs.pet_type
    breed := attrs.breed
    color := attrs.color
    size := attrs.size
    description := attrs.description
    location_found := attrs.location_found
    date_found := attrs.date_found
    contact_email := attrs.contact_email
    contact_phone := attrs.contact_phone
    status := ReportStatus.active }

/-- Modelled from the spec: found-report creation behind the ConflictGuard
precondition — if the submitting user owns an active-or-matched lost report
echoed by the submission, fail with Conflict carrying that report's id;
otherwise create the active found report (spec 4.7 and section 6). -/
def createFoundReport (uid : Nat) (attrs : FoundReportAttrs) (lost : List LostReport)
    (newId : Nat) : Except ConflictError FoundReport :=
  match lost.find? (fun lr => ownConflict uid attrs lr) with
  | some lr => Except.error { detail := conflictDetailMessage, lost_report_id := lr.id }
  | none => Except.ok (foundFromAttrs uid newId attrs)

/-- First conflict phrase the client checks the error detail for
(`errorDetail.includes('cannot report your own lost pet')`). -/
def ownPetPhrase : String := "cannot report your own lost pet"

/-- Second conflict phrase the client checks the error detail for
(`errorDetail.includes('mark your lost report as resolved')`). -/
def markResolvedPhrase : String := "mark your lost report as resolved"

/-- The message the client renders for a conflict
(from src/frontend/src/components/LostAndFound.jsx, handleReportFound). -/
def conflictClientMessage : String :=
  "You already reported this pet as lost. If you found it, please mark the report as resolved instead."

/-- From src/frontend/src/components/LostAndFound.jsx lines 194-207
(handleReportFound catch block): given the error detail and the
`lost_report_id` of the response body, returns the error message shown and
the retained conflicting lost-report id (reset to none beforehand and only
kept in the conflict branch). -/
def handleFoundReportError (detail : String) (lostReportId : Option Nat) :
    String × Option Nat :=
  if jsIncludes detail ownPetPhrase || jsIncludes detail markResolvedPhrase then
    (conflictClientMessage, lostReportId)
  else (detail, none)

/-! ## C7: match actions rendered on the Matches page
From src/unnamed/part_009 lines 848-890 (renderMatchActions). -/

/-- A match as rendered by the Matches page: the transported `status` is a
string and `is_confirmed` travels alongside it. -/
structure RenderedMatch where
  id : Nat
  status : String
  is_confirmed : Bool
  match_score : ℚ
  deriving DecidableEq, Repr

/-- Which action buttons a match row offers. -/
structure MatchActions where
  showConfirm : Bool
  showReject : Bool
  showResolve : Bool
  deriving DecidableEq, Repr

/-- The wire string of each match status (spec section 3 status values). -/
def statusWire : MatchStatus → String
  | MatchStatus.pending => "pending"
  | MatchStatus.confirmed => "confirmed"
  | MatchStatus.rejected => "rejected"
  | MatchStatus.resolved => "resolved"

/-- `is_confirmed` as derived by the engine: true once the status reached
confirmed (spec section 3: confirmed and resolved). -/
def derivedIsConfirmed : MatchStatus → Bool
  | MatchStatus.pending => false
  | MatchStatus.confirmed => true
  | MatchStatus.rejected => false
  | MatchStatus.resolved => true

/-- The 'pending' wire status string. -/
def pendingWire : String := "pending"

/-- The legacy 'pending_confirmation' wire status string also accepted by
the Matches page. -/
def pendingConfirmationWire : String := "pending_confirmation"

/-- The 'confirmed' wire status string. -/
def confirmedWire : String := "confirmed"

/-- From src/unnamed/part_009, renderMatchActions: confirm and reject are
offered when the status is 'pending' or 'pending_confirmation'; resolve is
offered when the status is 'confirmed' and `is_confirmed` is set; no other
row offers an action. -/
def renderMatchActions (m : RenderedMatch) : MatchActions :=
  let isPending := (m.status == pendingWire) || (m.status == pendingConfirmationWire)
  let isConfirmedRow := (m.status == confirmedWire) && m.is_confirmed
  { showConfirm := isPending
    showReject := isPending
    showResolve := isConfirmedRow }

/-- A match built from an engine status as the server transports it. -/
def renderedOf (st : MatchStatus) (i : Nat) (sc : ℚ) : RenderedMatch :=
  { id := i, status := statusWire st, is_confirmed := derivedIsConfirmed st, match_score := sc }

/-! ## C8: reason transport and rendering
Serialization modelled from the spec (semicolon-joined for transport);
rendering from src/unnamed/part_009 lines 1050-1061. -/

/-- Modelled from the spec: `match_reasons` serialized for transport as a
single semicolon-joined string (spec sections 3 and 6). -/
def matchReasonsWire (rs : List String) : String :=
  String.mk (joinWith [';'] (rs.map String.data))

/-- From src/unnamed/part_009: the list items rendered for
`match_reasons` — split the string on ';', trim each segment, and render
the non-empty segments in order
(`String(...).split(';').map((reason, idx) => reason.trim() && <li>...)`;
a falsy empty trim renders nothing). -/
def renderedReasonItems (s : String) : List String :=
  ((((splitOnChar ';' s.data).map trimChars).filter (fun l => l ≠ [])).map String.mk)

/-! ## Sample data for witnesses -/

/-- A caller-supplied status value used to exercise the override. -/
def reunitedValue : String := "resolved"

/-- One unread notification. -/
def sampleUnreadNotification : MatchNotification :=
  { id := 1
    recipient_user_id := 10
    match_id := some 1
    title := "New match found"
    message := "A found report may match your lost pet."
    is_read := false }

/-- A lost dog report. -/
def sampleLostDog : LostReport :=
  { id := 1
    owner_user_id := 10
    pet_type := "dog"
    breed := some ("Labrador")
    color := some ("brown")
    size := some PetSize.medium
    description := "Friendly brown lab"
    last_seen_location := "Central Park"
    last_seen_date := 100
    status := ReportStatus.active }

/-- A found cat report (type differs from `sampleLostDog`). -/
def sampleFoundCat : FoundReport :=
  { id := 2
    reporter_user_id := 20
    pet_type := "cat"
    breed := some ("Labrador")
    color := some ("brown")
    size := some PetSize.medium
    description := "Brown cat"
    location_found := "Central Park"
    date_found := 100
    contact_email := "a@example.com"
    contact_phone := "123"
    status := ReportStatus.active }

/-- A semicolon-free reason list used to exercise the transport round
trip. -/
def sampleReasonsList : List String :=
  ["Same pet type: dog", "Location overlap: Central Park / Central Park West"]

/-- A reason that itself contains a semicolon, used to show the transport
format cannot carry it intact. -/
def semicolonReason : String := "Similar breed; similar color"

/-- Found-report attributes echoing `sampleLostDog`. -/
def sampleFoundAttrs : FoundReportAttrs :=
  { pet_type := "dog"
    breed := some ("Labrador")
    color := some ("brown")
    size := some PetSize.medium
    description := "Found a brown lab"
    location_found := "Central Park West"
    date_found := 101
    contact_email := "b@example.com"
    contact_phone := "456" }

/-- A found dog report matching `sampleLostDog`'s pair. -/
def sampleFoundDog : FoundReport :=
  { id := 2
    reporter_user_id := 20
    pet_type := "dog"
    breed := some ("Labrador")
    color := some ("brown")
    size := some PetSize.medium
    description := "Found a brown lab"
    location_found := "Central Park West"
    date_found := 101
    contact_email := "b@example.com"
    contact_phone := "456"
    status := ReportStatus.active }

/-- A second found dog report, filed by a third user. -/
def sampleFoundDogTwo : FoundReport :=
  { id := 3
    reporter_user_id := 30
    pet_type := "dog"
    breed := some ("Labrador")
    color := some ("black")
    size := some PetSize.medium
    description := "Found a black lab"
    location_found := "Riverside Park"
    date_found := 102
    contact_email := "c@example.com"
    contact_phone := "789"
    status := ReportStatus.active }

/-- The pending match confirmed in the scenarios (pair 1/2). -/
def pendingMatchSample : Match :=
  { id := 1
    lost_report_id := 1
    found_report_id := 2
    match_score := 80
    match_reasons := sampleReasonsList
    status := MatchStatus.pending
    is_confirmed := false }

/-- A competing pending match referencing the same lost report (pair 1/3). -/
def competingMatchSample : Match :=
  { id := 2
    lost_report_id := 1
    found_report_id := 3
    match_score := 60
    match_reasons := sampleReasonsList
    status := MatchStatus.pending
    is_confirmed := false }

/-- A pending match referencing neither of the confirmed pair's reports. -/
def unrelatedMatchSample : Match :=
  { id := 3
    lost_report_id := 7
    found_report_id := 8
    match_score := 55
    match_reasons := sampleReasonsList
    status := MatchStatus.pending
    is_confirmed := false }

/-- An engine state with one pending match, one competing pending match and
one unrelated pending match. -/
def pendingStateSample : EngineState :=
  { lost := [sampleLostDog]
    found := [sampleFoundDog, sampleFoundDogTwo]
    matchesTable := [pendingMatchSample, competingMatchSample, unrelatedMatchSample]
    notifications := [] }

/-- The already-resolved match of the idempotence scenario. -/
def resolvedMatchSample : Match :=
  { id := 1
    lost_report_id := 1
    found_report_id := 2
    match_score := 80
    match_reasons := sampleReasonsList
    status := MatchStatus.resolved
    is_confirmed := true }

/-- An engine state whose single match is already resolved. -/
def resolvedStateSample : EngineState :=
  { lost := [{ sampleLostDog with status := ReportStatus.resolved }]
    found := [{ sampleFoundDog with status := ReportStatus.resolved }]
    matchesTable := [resolvedMatchSample]
    notifications := [] }

/-- The observable outcome claim C1 asserts for a successful confirmation:
some state is returned in which the confirmed match row is confirmed with
`is_confirmed` set, every other previously pending row touching either of
its reports is rejected in place, rows touching neither report are
unchanged, and both referenced reports are stored with status matched. -/
def ConfirmOutcome (s : EngineState) (mid uid : Nat) (m : Match) (lr : LostReport)
    (fr : FoundReport) : Prop :=
  ∃ s', confirm s mid uid = Except.ok s' ∧
    s'.matchesTable.length = s.matchesTable.length ∧
    (∀ i (h1 : i < s.matchesTable.length) (h2 : i < s'.matchesTable.length),
      ((s.matchesTable[i]).id = m.id →
        (s'.matchesTable[i]).status = MatchStatus.confirmed ∧
        (s'.matchesTable[i]).is_confirmed = true) ∧
      ((s.matchesTable[i]).id ≠ m.id → (s.matchesTable[i]).status = MatchStatus.pending →
        ((s.matchesTable[i]).lost_report_id = m.lost_report_id ∨
          (s.matchesTable[i]).found_report_id = m.found_report_id) →
        s'.matchesTable[i] = { s.matchesTable[i] with status := MatchStatus.rejected }) ∧
      ((s.matchesTable[i]).id ≠ m.id →
        (s.matchesTable[i]).lost_report_id ≠ m.lost_report_id →
        (s.matchesTable[i]).found_report_id ≠ m.found_report_id →
        s'.matchesTable[i] = s.matchesTable[i])) ∧
    { lr with status := ReportStatus.matched } ∈ s'.lost ∧
    { fr with status := ReportStatus.matched } ∈ s'.found

/-! ## Theorems -/

/-- C10: every `lostFoundService.getFoundReports` call sends query
parameters that include `status='active'` unless the caller's params
object itself supplies a `status` key, in which case the caller's value
replaces the default; a call with no arguments requests only active found
reports. -/
theorem getFoundReports_status_default (params : List (String × String)) :
    (params.lookup statusKey = none →
      (getFoundReportsParams params).lookup statusKey = some activeValue) ∧
    (∀ v, params.lookup statusKey = some v →
      (getFoundReportsParams params).lookup statusKey = some v) ∧
    (getFoundReportsParams []).lookup statusKey = some activeValue := by
  refine ⟨?_, ?_, ?_⟩
  · intro h
    simp [getFoundReportsParams, jsSpread, h, List.lookup]
  · intro v h
    simp [getFoundReportsParams, jsSpread, h, List.lookup]
  · simp [getFoundReportsParams, jsSpread, List.lookup]

/-- C10 witness: a parameterless call requests active reports, and a caller
supplying a status key overrides the default. -/
theorem getFoundReports_status_default_witness :
    (getFoundReportsParams []).lookup statusKey = some activeValue ∧
    (getFoundReportsParams [(statusKey, reunitedValue)]).lookup statusKey =
      some reunitedValue :=
  ⟨(getFoundReports_status_default []).1 rfl,
   (getFoundReports_status_default [(statusKey, reunitedValue)]).2.1 reunitedValue rfl⟩

/-- C9: the match-notification bell badge is shown exactly when at least
one fetched match notification is unread; its text is the unread count
when that count is at most 99 and the string "99+" when it exceeds 99. -/
theorem matchBadge_spec (ns : List MatchNotification) :
    (badgeVisible ns = true ↔ ∃ n ∈ ns, n.is_read = false) ∧
    (badgeCount ns ≤ 99 → badgeText ns = Nat.repr (badgeCount ns)) ∧
    (99 < badgeCount ns → badgeText ns = ninetyNinePlusText) := by
  refine ⟨?_, ?_, ?_⟩
  · rw [badgeVisible, decide_eq_true_iff, badgeCount, List.length_pos_iff_exists_mem]
    simp [List.mem_filter]
  · intro h
    simp [badgeText, Nat.not_lt.mpr h]
  · intro h
    simp [badgeText, h]

/-- C9 witness: with one unread notification the badge is visible with
text "1". -/
theorem matchBadge_spec_witness :
    badgeVisible [sampleUnreadNotification] = true ∧
    badgeText [sampleUnreadNotification] = Nat.repr 1 :=
  ⟨(matchBadge_spec [sampleUnreadNotification]).1.mpr
      ⟨sampleUnreadNotification, List.mem_singleton.mpr rfl, rfl⟩,
   (matchBadge_spec [sampleUnreadNotification]).2.1 (by decide)⟩

/-- C2: for every lost/found pair with differing pet types the scoring
function returns score exactly 0 and an empty reasons list — the type
mismatch vetoes the pair entirely, with no partial credit from breed,
color, size, location, or date. -/
theorem score_type_veto (lost : LostReport) (found : FoundReport)
    (h : lost.pet_type ≠ found.pet_type) : score lost found = (0, []) := by
  have hv : (compareAttributes lost found).typeVeto = true := by
    simp [compareAttributes, h]
  simp [score, hv]

/-- C2 witness: a dog lost report against a cat found report scores 0 with
no reasons. -/
theorem score_type_veto_witness : score sampleLostDog sampleFoundCat = (0, []) :=
  score_type_veto sampleLostDog sampleFoundCat (by decide)

/-- C7: for a match transported with one of the engine's four statuses and
the derived `is_confirmed` flag, the Matches page offers confirm and
reject exactly when the status is pending, offers resolve exactly when the
status is confirmed, and offers no action for a rejected or resolved
match. -/
theorem renderMatchActions_spec (st : MatchStatus) (i : Nat) (sc : ℚ) :
    ((renderMatchActions (renderedOf st i sc)).showConfirm = true ↔
      st = MatchStatus.pending) ∧
    ((renderMatchActions (renderedOf st i sc)).showReject = true ↔
      st = MatchStatus.pending) ∧
    ((renderMatchActions (renderedOf st i sc)).showResolve = true ↔
      st = MatchStatus.confirmed) ∧
    ((st = MatchStatus.rejected ∨ st = MatchStatus.resolved) →
      renderMatchActions (renderedOf st i sc) =
        { showConfirm := false, showReject := false, showResolve := false }) := by
  cases st <;>
    simp [renderMatchActions, renderedOf, statusWire, derivedIsConfirmed,
      pendingWire, pendingConfirmationWire, confirmedWire]

/-- C7 witness: a rejected match is offered no action. -/
theorem renderMatchActions_spec_witness :
    renderMatchActions (renderedOf MatchStatus.rejected 1 50) =
      { showConfirm := false, showReject := false, showResolve := false } :=
  (renderMatchActions_spec MatchStatus.rejected 1 50).2.2.2 (Or.inl rfl)

/-- Rebuilding a string from its character data is the identity. -/
theorem stringMk_data (s : String) : String.mk s.data = s := rfl

/-- Splitting a segment that does not contain the separator yields that
single segment. -/
theorem splitOnChar_of_not_mem (c : Char) (l : List Char) (h : c ∉ l) :
    splitOnChar c l = [l] := by
  induction l with
  | nil => rfl
  | cons x xs ih =>
    have hx : ¬ x = c := fun hc => h (by simp [hc])
    have hxs : c ∉ xs := fun hc => h (List.mem_cons_of_mem _ hc)
    simp [splitOnChar, hx, ih hxs]

/-- Splitting past a leading separator-free segment peels that segment
off. -/
theorem splitOnChar_append (c : Char) (x rest : List Char) (h : c ∉ x) :
    splitOnChar c (x ++ c :: rest) = x :: splitOnChar c rest := by
  induction x with
  | nil => simp [splitOnChar]
  | cons a as ih =>
    have ha : ¬ a = c := fun hc => h (by simp [hc])
    have has : c ∉ as := fun hc => h (List.mem_cons_of_mem _ hc)
    simp [splitOnChar, ha, ih has]

/-- Splitting on ';' inverts joining with ';' when no segment contains the
separator. -/
theorem splitOnChar_joinWith (ps : List (List Char)) (hne : ps ≠ [])
    (h : ∀ p ∈ ps, ';' ∉ p) : splitOnChar ';' (joinWith [';'] ps) = ps := by
  induction ps with
  | nil => cases hne rfl
  | cons x xs ih =>
    cases xs with
    | nil => simp [joinWith, splitOnChar_of_not_mem ';' x (h x (by simp))]
    | cons y ys =>
      have hx : ';' ∉ x := h x (by simp)
      have hj : joinWith [';'] (x :: y :: ys) = x ++ ';' :: joinWith [';'] (y :: ys) := by
        simp [joinWith]
      rw [hj, splitOnChar_append ';' x _ hx,
        ih (by simp) (fun p hp => h p (List.mem_cons_of_mem _ hp))]

/-- C8: reasons travel as one semicolon-joined string and the match detail
view recovers the list by splitting on ';', trimming, and rendering the
non-empty segments in order — exact recovery holds when no reason contains
a semicolon (and reasons are trimmed and non-empty), while a reason that
does contain a semicolon does not survive the round trip intact. -/
theorem matchReasons_render_spec (rs : List String) :
    ((∀ r ∈ rs, r.data ≠ [] ∧ trimChars r.data = r.data ∧ ¬ (';' ∈ r.data)) →
      renderedReasonItems (matchReasonsWire rs) = rs) ∧
    renderedReasonItems (matchReasonsWire [semicolonReason]) ≠ [semicolonReason] := by
  constructor
  · intro h
    by_cases hrs : rs = []
    · subst hrs
      simp [matchReasonsWire, renderedReasonItems, joinWith, splitOnChar, trimChars]
    · have hne : rs.map String.data ≠ [] := by
        simpa using hrs
      have hsep : ∀ p ∈ rs.map String.data, ';' ∉ p := by
        intro p hp
        obtain ⟨r, hr, hpr⟩ := List.mem_map.mp hp
        subst hpr
        exact (h r hr).2.2
      rw [renderedReasonItems, matchReasonsWire]
      rw [show (String.mk (joinWith [';'] (rs.map String.data))).data
            = joinWith [';'] (rs.map String.data) from rfl]
      rw [splitOnChar_joinWith _ hne hsep]
      have htrim : (rs.map String.data).map trimChars = rs.map String.data := by
        rw [List.map_map]
        refine List.map_congr_left ?_
        intro r hr
        exact (h r hr).2.1
      rw [htrim]
      have hfil : (rs.map String.data).filter (fun l => l ≠ []) = rs.map String.data := by
        refine List.filter_eq_self.mpr ?_
        intro p hp
        obtain ⟨r, hr, hpr⟩ := List.mem_map.mp hp
        subst hpr
        simpa using (h r hr).1
      rw [hfil, List.map_map]
      refine List.map_congr_left ?_ |>.trans (List.map_id rs)
      intro r hr
      rfl
  · decide

/-- C8 witness: a semicolon-free reason list survives the transport round
trip. -/
theorem matchReasons_render_spec_witness :
    renderedReasonItems (matchReasonsWire sampleReasonsList) = sampleReasonsList :=
  (matchReasons_render_spec sampleReasonsList).1 (by decide)

/-- Rescoring a row never changes which report pair it is for. -/
theorem pairMatches_rescorePending (lid fid : Nat) (sc : ℚ) (rs : List String) (m : Match) :
    pairMatches (rescorePending lid fid sc rs m) lid fid = pairMatches m lid fid := by
  by_cases hc : pairMatches m lid fid = true ∧ m.status = MatchStatus.pending
  · have hpair : m.lost_report_id = lid ∧ m.found_report_id = fid :=
      of_decide_eq_true hc.1
    simp [rescorePending, hc, pairMatches, hpair.1, hpair.2]
  · rw [rescorePending, if_neg hc]

/-- With no row stored for the pair, upsert appends exactly one fresh
pending row. -/
theorem upsert_of_no_pair (ms : List Match) (lid fid : Nat) (sc : ℚ) (rs : List String)
    (n : Nat) (h : pairCount ms lid fid = 0) :
    upsert ms lid fid sc rs n = ms ++ [mkPendingMatch n lid fid sc rs] := by
  have hany : ¬ (ms.any (fun m => pairMatches m lid fid) = true) := by
    rw [pairCount] at h
    simp only [List.any_eq_true, not_exists]
    intro m
    intro hc
    exact absurd hc.2 (List.countP_eq_zero.mp h m hc.1)
  rw [upsert, if_neg hany]

/-- With a row stored for the pair, upsert rescores in place. -/
theorem upsert_of_pair (ms : List Match) (lid fid : Nat) (sc : ℚ) (rs : List String)
    (n : Nat) (h : pairCount ms lid fid ≠ 0) :
    upsert ms lid fid sc rs n = ms.map (rescorePending lid fid sc rs) := by
  have hany : ms.any (fun m => pairMatches m lid fid) = true := by
    rw [pairCount] at h
    rw [List.any_eq_true]
    obtain ⟨m, hm, hp⟩ := List.countP_pos_iff.mp (Nat.pos_of_ne_zero h)
    exact ⟨m, hm, hp⟩
  rw [upsert, if_pos hany]

/-- In-place rescoring preserves the number of rows stored for the pair. -/
theorem pairCount_map_rescore (ms : List Match) (lid fid : Nat) (sc : ℚ)
    (rs : List String) :
    pairCount (ms.map (rescorePending lid fid sc rs)) lid fid = pairCount ms lid fid := by
  rw [pairCount, pairCount, List.countP_map]
  refine List.countP_congr ?_
  intro m _
  simp [Function.comp, pairMatches_rescorePending]

/-- After any upsert, a pair that previously had at most one row has
exactly one row. -/
theorem pairCount_upsert (ms : List Match) (lid fid : Nat) (sc : ℚ) (rs : List String)
    (n : Nat) (h : pairCount ms lid fid ≤ 1) :
    pairCount (upsert ms lid fid sc rs n) lid fid = 1 := by
  by_cases h0 : pairCount ms lid fid = 0
  · rw [upsert_of_no_pair ms lid fid sc rs n h0, pairCount, List.countP_append]
    rw [pairCount] at h0
    rw [h0]
    simp [pairMatches, mkPendingMatch]
  · rw [upsert_of_pair ms lid fid sc rs n h0, pairCount_map_rescore]
    omega

/-- C4: matches are unique per (lost_report_id, found_report_id) pair —
upsert for a pair with no stored row appends exactly one new pending row;
upsert for a pair with a stored row keeps the row count and rescores the
pending row for the pair in place, leaving every confirmed, rejected,
resolved or unrelated row entirely unchanged; and two upserts for the same
pair leave exactly one row for that pair. -/
theorem upsert_unique_pair (ms : List Match) (lid fid : Nat) (sc sc2 : ℚ)
    (rs rs2 : List String) (n1 n2 : Nat) :
    (pairCount ms lid fid = 0 →
      upsert ms lid fid sc rs n1 = ms ++ [mkPendingMatch n1 lid fid sc rs]) ∧
    (pairCount ms lid fid ≠ 0 →
      (upsert ms lid fid sc rs n1).length = ms.length ∧
      ∀ i (h1 : i < ms.length) (h2 : i < (upsert ms lid fid sc rs n1).length),
        (pairMatches ms[i] lid fid = true → ms[i].status = MatchStatus.pending →
          (upsert ms lid fid sc rs n1)[i] =
            { ms[i] with match_score := sc, match_reasons := rs }) ∧
        (¬ (pairMatches ms[i] lid fid = true ∧ ms[i].status = MatchStatus.pending) →
          (upsert ms lid fid sc rs n1)[i] = ms[i])) ∧
    (pairCount ms lid fid ≤ 1 →
      pairCount (upsert (upsert ms lid fid sc rs n1) lid fid sc2 rs2 n2) lid fid = 1) := by
  refine ⟨upsert_of_no_pair ms lid fid sc rs n1, ?_, ?_⟩
  · intro hne
    have hu := upsert_of_pair ms lid fid sc rs n1 hne
    constructor
    · rw [hu, List.length_map]
    · intro i h1 h2
      have hget : (upsert ms lid fid sc rs n1)[i] = rescorePending lid fid sc rs ms[i] := by
        simp only [hu] at h2 ⊢
        exact List.getElem_map _
      constructor
      · intro hp hst
        rw [hget, rescorePending, if_pos ⟨hp, hst⟩]
      · intro hnc
        rw [hget, rescorePending, if_neg hnc]
  · intro hle
    exact pairCount_upsert _ lid fid sc2 rs2 n2
      (Nat.le_of_eq (pairCount_upsert ms lid fid sc rs n1 hle))

/-- C3: filing a found report that echoes one of the user's own active (or
matched) lost reports fails with a Conflict error carrying the existing
lost report's id and a detail message directing them to the mark-resolved
flow, while the identical submission by a different user (who owns none of
the stored lost reports) succeeds; on the client, an error detail carrying
the conflict phrasing renders the "mark it resolved instead" message and
retains the returned lost_report_id. -/
theorem conflictGuard_spec (uid otherUid : Nat) (attrs : FoundReportAttrs)
    (lost : List LostReport) (lr : LostReport) (n1 n2 : Nat) :
    (lost.find? (fun l => ownConflict uid attrs l) = some lr →
      createFoundReport uid attrs lost n1 =
        Except.error { detail := conflictDetailMessage, lost_report_id := lr.id } ∧
      jsIncludes conflictDetailMessage markResolvedPhrase = true ∧
      handleFoundReportError conflictDetailMessage (some lr.id) =
        (conflictClientMessage, some lr.id)) ∧
    ((∀ l ∈ lost, l.owner_user_id ≠ otherUid) →
      createFoundReport otherUid attrs lost n2 =
        Except.ok (foundFromAttrs otherUid n2 attrs)) := by
  constructor
  · intro h
    refine ⟨?_, ?_, ?_⟩
    · simp [createFoundReport, h]
    · decide
    · have hcond : (jsIncludes conflictDetailMessage ownPetPhrase
          || jsIncludes conflictDetailMessage markResolvedPhrase) = true := by decide
      rw [handleFoundReportError, if_pos hcond]
  · intro hother
    have hfind : lost.find? (fun l => ownConflict otherUid attrs l) = none := by
      rw [List.find?_eq_none]
      intro l hl
      exact fun hc => hother l hl (of_decide_eq_true hc).1
    simp [createFoundReport, hfind]

/-- C3 witness: user 10 (owner of the active lost report) is rejected with
the Conflict body and client rendering; user 20 succeeds with the same
submission. -/
theorem conflictGuard_spec_witness :
    (createFoundReport 10 sampleFoundAttrs [sampleLostDog] 5 =
        Except.error { detail := conflictDetailMessage, lost_report_id := sampleLostDog.id } ∧
      jsIncludes conflictDetailMessage markResolvedPhrase = true ∧
      handleFoundReportError conflictDetailMessage (some sampleLostDog.id) =
        (conflictClientMessage, some sampleLostDog.id)) ∧
    createFoundReport 20 sampleFoundAttrs [sampleLostDog] 6 =
      Except.ok (foundFromAttrs 20 6 sampleFoundAttrs) :=
  ⟨(conflictGuard_spec 10 20 sampleFoundAttrs [sampleLostDog] sampleLostDog 5 6).1
      (by decide),
   (conflictGuard_spec 10 20 sampleFoundAttrs [sampleLostDog] sampleLostDog 5 6).2
      (by decide)⟩

/-- C4 witness: starting from an empty table, the first upsert inserts one
pending row and a second upsert for the same pair leaves exactly one row. -/
theorem upsert_unique_pair_witness :
    upsert ([] : List Match) 1 2 50 sampleReasonsList 7 =
      [] ++ [mkPendingMatch 7 1 2 50 sampleReasonsList] ∧
    pairCount (upsert (upsert ([] : List Match) 1 2 50 sampleReasonsList 7)
      1 2 60 sampleReasonsList 8) 1 2 = 1 :=
  ⟨(upsert_unique_pair [] 1 2 50 60 sampleReasonsList sampleReasonsList 7 8).1 rfl,
   (upsert_unique_pair [] 1 2 50 60 sampleReasonsList sampleReasonsList 7 8).2.2
     (by decide)⟩

/-- C6: resolve is idempotent at its terminal state — for a match already
resolved, a participant's resolve call succeeds and returns the engine
state entirely unchanged (same match, same reports, same notifications). -/
theorem resolve_idempotent (s : EngineState) (mid uid : Nat) (m : Match)
    (lr : LostReport) (fr : FoundReport)
    (hm : findMatch s mid = some m)
    (hl : findLost s m.lost_report_id = some lr)
    (hf : findFound s m.found_report_id = some fr)
    (hu : isParticipant uid lr fr = true)
    (hr : m.status = MatchStatus.resolved) :
    resolve s mid uid = Except.ok s := by
  simp [resolve, hm, hl, hf, hu, hr]

/-- C6 witness: resolving the already-resolved sample state returns it
unchanged. -/
theorem resolve_idempotent_witness :
    resolve resolvedStateSample 1 10 = Except.ok resolvedStateSample :=
  resolve_idempotent resolvedStateSample 1 10 resolvedMatchSample
    ({ sampleLostDog with status := ReportStatus.resolved })
    ({ sampleFoundDog with status := ReportStatus.resolved }) rfl rfl rfl rfl rfl

/-- C5: every transition called by a user who is neither the lost report's
owner nor the found report's reporter fails with Forbidden, and every
transition attempted from an illegal source state (non-pending for
confirm/reject, neither confirmed nor resolved for resolve) fails with an
InvalidTransition error identifying the current and requested states; an
error result carries no updated state, so the match is unchanged. -/
theorem transition_guards (s : EngineState) (mid uid : Nat) (m : Match)
    (lr : LostReport) (fr : FoundReport)
    (hm : findMatch s mid = some m)
    (hl : findLost s m.lost_report_id = some lr)
    (hf : findFound s m.found_report_id = some fr) :
    (isParticipant uid lr fr = false →
      confirm s mid uid = Except.error TransitionError.forbidden ∧
      reject s mid uid = Except.error TransitionError.forbidden ∧
      resolve s mid uid = Except.error TransitionError.forbidden) ∧
    (isParticipant uid lr fr = true →
      (m.status ≠ MatchStatus.pending →
        confirm s mid uid =
          Except.error (TransitionError.invalidTransition m.status MatchStatus.confirmed)) ∧
      (m.status ≠ MatchStatus.pending →
        reject s mid uid =
          Except.error (TransitionError.invalidTransition m.status MatchStatus.rejected)) ∧
      (m.status ≠ MatchStatus.confirmed → m.status ≠ MatchStatus.resolved →
        resolve s mid uid =
          Except.error (TransitionError.invalidTransition m.status MatchStatus.resolved))) := by
  constructor
  · intro hu
    refine ⟨?_, ?_, ?_⟩ <;> simp [confirm, reject, resolve, hm, hl, hf, hu]
  · intro hu
    refine ⟨?_, ?_, ?_⟩
    · intro hst
      simp [confirm, hm, hl, hf, hu, hst]
    · intro hst
      simp [reject, hm, hl, hf, hu, hst]
    · intro hc hr
      simp [resolve, hm, hl, hf, hu, hc, hr]

/-- C5 witness: a non-participant's confirm on the pending sample fails
with Forbidden, and a participant's confirm on the resolved sample fails
with InvalidTransition (current resolved, requested confirmed). -/
theorem transition_guards_witness :
    confirm pendingStateSample 1 99 = Except.error TransitionError.forbidden ∧
    confirm resolvedStateSample 1 10 =
      Except.error (TransitionError.invalidTransition MatchStatus.resolved
        MatchStatus.confirmed) :=
  ⟨((transition_guards pendingStateSample 1 99 pendingMatchSample sampleLostDog
      sampleFoundDog rfl rfl rfl).1 (by decide)).1,
   ((transition_guards resolvedStateSample 1 10 resolvedMatchSample
      ({ sampleLostDog with status := ReportStatus.resolved })
      ({ sampleFoundDog with status := ReportStatus.resolved }) rfl rfl rfl).2
      (by decide)).1 (by decide)⟩

/-- C1: a participant's successful confirm of a pending match returns a
state in which that match is confirmed with `is_confirmed` set, both
referenced reports are stored as matched, every other previously pending
match referencing either report is rejected, and matches referencing
neither report are unchanged. -/
theorem confirm_pending_spec (s : EngineState) (mid uid : Nat) (m : Match)
    (lr : LostReport) (fr : FoundReport)
    (hm : findMatch s mid = some m)
    (hl : findLost s m.lost_report_id = some lr)
    (hf : findFound s m.found_report_id = some fr)
    (hu : isParticipant uid lr fr = true)
    (hp : m.status = MatchStatus.pending) :
    ConfirmOutcome s mid uid m lr fr := by
  have hc : confirm s mid uid = Except.ok (applyConfirm s m lr fr) := by
    simp [confirm, hm, hl, hf, hu, hp]
  refine ⟨applyConfirm s m lr fr, hc, ?_, ?_, ?_, ?_⟩
  · simp [applyConfirm]
  · intro i h1 h2
    have hg : (applyConfirm s m lr fr).matchesTable[i] =
        confirmMatchUpdate m (s.matchesTable[i]) := by
      simp [applyConfirm]
    refine ⟨?_, ?_, ?_⟩
    · intro hid
      rw [hg, confirmMatchUpdate, if_pos hid]
      exact ⟨rfl, rfl⟩
    · intro hid hpend href
      rw [hg, confirmMatchUpdate, if_neg hid, if_pos ⟨href, hpend⟩]
    · intro hid hlo hfo
      have hnc : ¬ (((s.matchesTable[i]).lost_report_id = m.lost_report_id ∨
          (s.matchesTable[i]).found_report_id = m.found_report_id) ∧
          (s.matchesTable[i]).status = MatchStatus.pending) := by
        rintro ⟨h | h, -⟩
        exacts [hlo h, hfo h]
      rw [hg, confirmMatchUpdate, if_neg hid, if_neg hnc]
  · have hl2 : List.find? (fun r => decide (r.id = m.lost_report_id)) s.lost = some lr := hl
    have hmem : lr ∈ s.lost := List.mem_of_find?_eq_some hl2
    have hpl := List.find?_some hl2
    have hid : lr.id = m.lost_report_id := of_decide_eq_true hpl
    simp only [applyConfirm]
    refine List.mem_map.mpr ⟨lr, hmem, ?_⟩
    simp [hid]
  · have hf2 : List.find? (fun r => decide (r.id = m.found_report_id)) s.found = some fr := hf
    have hmem : fr ∈ s.found := List.mem_of_find?_eq_some hf2
    have hpf := List.find?_some hf2
    have hid : fr.id = m.found_report_id := of_decide_eq_true hpf
    simp only [applyConfirm]
    refine List.mem_map.mpr ⟨fr, hmem, ?_⟩
    simp [hid]

/-- C1 witness: confirming the pending sample match as its lost report's
owner produces the asserted outcome over the three stored matches. -/
theorem confirm_pending_spec_witness :
    ConfirmOutcome pendingStateSample 1 10 pendingMatchSample sampleLostDog
      sampleFoundDog :=
  confirm_pending_spec pendingStateSample 1 10 pendingMatchSample sampleLostDog
    sampleFoundDog rfl rfl rfl rfl rfl

end LostFound
